import Mathlib

/-!
Verification of the kubernetes_linux plugin core (lifecycle, backup, restore,
node taint management) of the middleware repository, as a shallow embedding in
Lean 4.  Python source files embedded:

  * `plugins/kubernetes_linux/utils.py`       (`Status`, `STATUS_DESCRIPTIONS`, name prefixes)
  * `plugins/kubernetes_linux/lifecycle.py`   (`set_status`, `get_status_dict`,
    `post_start_impl`, `post_start_internal`)
  * `plugins/kubernetes_linux/k8s/core_api.py` (`Node.add_taint`, `Node.remove_taint`)
  * `plugins/kubernetes_linux/backup.py`      (`backup_chart_releases`, `list_backups`,
    `delete_backup`, `post_system_update_hook`)
  * `plugins/kubernetes_linux/restore.py`     (`restore_backup`)

Collaborator calls that go over the middleware RPC bus (`middleware.call_sync`)
are modelled through explicit environment records whose fields give each call's
outcome; loops with `time.sleep` polling are modelled as recursion on the
remaining timeout budget, the poll made at attempt `i` reading the environment
at index `i`.
-/

set_option maxRecDepth 10000

namespace Middleware

/-- Errors raised by the embedded code.  `callError` carries the message and the
optional `errno` of middlewared's `CallError`; `osError` models Python `OSError`
(e.g. `FileExistsError` from `os.makedirs`); `keyError` models a Python
`KeyError` on a dict access. -/
inductive Err where
  | callError (msg : String) (errno : Option Nat)
  | osError (errno : Nat) (msg : String)
  | keyError (key : String)
  | apiException (msg : String)
  deriving Repr, DecidableEq

/-- `errno.EEXIST` -/
def EEXIST : Nat := 17

/-- `errno.ENOENT` -/
def ENOENT : Nat := 2

/-- The `errno` attached to a raised error, when any. -/
def Err.errnoOf : Err → Option Nat
  | .callError _ e => e
  | .osError e _ => some e
  | .keyError _ => none
  | .apiException _ => none

/-! ## utils.py -/

/-- Python `s.startswith(p)`, embedded over the character lists of the two
strings (structural recursion, so concrete instances evaluate). -/
def strStartsWith (s p : String) : Bool :=
  p.data.isPrefixOf s.data

/-- Python `s[n:]` / the remainder of `s` after its first `n` characters. -/
def strDrop (s : String) (n : Nat) : String :=
  String.mk (s.data.drop n)

/-- `utils.py`: `BACKUP_NAME_PREFIX = 'ix-applications-backup-'` -/
def BACKUP_NAME_PREFIX : String := "ix-applications-backup-"

/-- `utils.py`: `UPDATE_BACKUP_PREFIX = 'system-update-'` -/
def UPDATE_BACKUP_PREFIX : String := "system-update-"

/-- `utils.py`: the `Status` enum of the kubernetes lifecycle. -/
inductive Status where
  | PENDING
  | RUNNING
  | INITIALIZING
  | STOPPING
  | STOPPED
  | UNCONFIGURED
  | FAILED
  deriving Repr, DecidableEq

/-- The `.value` string of each `Status` member (`utils.py` assigns each member
a string equal to its name). -/
def Status.value : Status → String
  | .PENDING => "PENDING"
  | .RUNNING => "RUNNING"
  | .INITIALIZING => "INITIALIZING"
  | .STOPPING => "STOPPING"
  | .STOPPED => "STOPPED"
  | .UNCONFIGURED => "UNCONFIGURED"
  | .FAILED => "FAILED"

/-- The member names of the `Status` enum, i.e. the keys of
`Status.__members__` in declaration order. -/
def statusMembers : List String :=
  ["PENDING", "RUNNING", "INITIALIZING", "STOPPING", "STOPPED", "UNCONFIGURED", "FAILED"]

/-- `Status(s)`: look a member up by its `.value`.  In `utils.py` every
member's value equals its name, so this is a lookup over the same strings. -/
def Status.ofValue : String → Option Status
  | "PENDING" => some .PENDING
  | "RUNNING" => some .RUNNING
  | "INITIALIZING" => some .INITIALIZING
  | "STOPPING" => some .STOPPING
  | "STOPPED" => some .STOPPED
  | "UNCONFIGURED" => some .UNCONFIGURED
  | "FAILED" => some .FAILED
  | _ => none

/-- `utils.py`: `STATUS_DESCRIPTIONS`. -/
def STATUS_DESCRIPTIONS : Status → String
  | .PENDING => "Application(s) state is to be determined yet"
  | .RUNNING => "Application(s) are currently running"
  | .INITIALIZING => "Application(s) are being initialized"
  | .STOPPING => "Application(s) are being stopped"
  | .STOPPED => "Application(s) have been stopped"
  | .UNCONFIGURED => "Application(s) are not configured"
  | .FAILED => "Application(s) have failed to start"

/-- `utils.py`: `APPS_STATUS = namedtuple('Status', ['status', 'description'])`,
as held in `KubernetesService.STATUS` (`lifecycle.py`). -/
structure APPS_STATUS where
  status : Status
  description : String
  deriving Repr, DecidableEq

/-! ## lifecycle.py: `set_status` / `get_status_dict` -/

/-- `lifecycle.py` `set_status(new_status, extra=None)`:
`assert new_status in Status.__members__` (modelled as returning `none` when
the assertion fires), then `new_status = Status(new_status)` and the service's
`STATUS` becomes `APPS_STATUS(new_status, f'{desc}:\n{extra}' if extra else desc)`.
Note Python's `if extra` is false for `None` and for the empty string. -/
def set_status (new_status : String) (extra : Option String) : Option APPS_STATUS :=
  if new_status ∈ statusMembers then
    match Status.ofValue new_status with
    | some st =>
        some ⟨st,
          match extra with
          | some e => if e = "" then STATUS_DESCRIPTIONS st else STATUS_DESCRIPTIONS st ++ ":\n" ++ e
          | none => STATUS_DESCRIPTIONS st⟩
    | none => none
  else
    none

/-- `lifecycle.py` `get_status_dict()`: returns
`{'status': STATUS.status.value, 'description': STATUS.description}`.
`status()` (the public endpoint) returns exactly this dict. -/
def get_status_dict (s : APPS_STATUS) : String × String :=
  (s.status.value, s.description)

/-! ## k8s/core_api.py: `Node.add_taint` / `Node.remove_taint` -/

/-- A node taint dict.  `add_taint` asserts that `'key'` and `'effect'` are
present; `'value'` may be absent (`dict.get` then yields `None`), modelled as
`Option String`. -/
structure Taint where
  key : String
  effect : String
  value : Option String
  deriving Repr, DecidableEq

/-- The comparison `add_taint` makes between an existing taint and the taint
dict passed in: `all(taint.get(k) == taint_dict.get(k) for k in ('key',
'effect', 'value'))`. -/
def taintMatches (taint taint_dict : Taint) : Bool :=
  taint.key == taint_dict.key && taint.effect == taint_dict.effect &&
    taint.value == taint_dict.value

/-- `Node.add_taint(taint_dict)` over the node's current
`spec['taints']` list.  Walks the existing taints; on a full
key/effect/value match it returns without calling `Node.update` (modelled as
`none`); otherwise it calls `update` with `existing_taints + [taint_dict]`
(modelled as `some` of the new taint list sent to the API). -/
def add_taint (taints : List Taint) (taint_dict : Taint) : Option (List Taint) :=
  if taints.any (fun t => taintMatches t taint_dict) then
    none
  else
    some (taints ++ [taint_dict])

/-- The node's taint list after an `add_taint` call: unchanged when the call
was a no-op, otherwise the list passed to `Node.update`. -/
def taintsAfterAdd (taints : List Taint) (taint_dict : Taint) : List Taint :=
  match add_taint taints taint_dict with
  | none => taints
  | some l => l

/-- `Node.remove_taint`'s index-collecting loop,
`for index, taint in enumerate(taints): if taint['key'] == taint_key:
indexes.append(index)`, with `i` the index of the first element of the
remaining list. -/
def removeIndexesAux (taint_key : String) : List Taint → Nat → List Nat
  | [], _ => []
  | t :: rest, i =>
      if t.key == taint_key then i :: removeIndexesAux taint_key rest (i + 1)
      else removeIndexesAux taint_key rest (i + 1)

/-- `Node.remove_taint`: the `indexes` list — positions (ascending) of every
taint whose `'key'` equals `taint_key`. -/
def removeIndexes (taints : List Taint) (taint_key : String) : List Nat :=
  removeIndexesAux taint_key taints 0

/-- `Node.remove_taint(taint_key)`: collect `indexes` of taints whose key
matches; if empty raise
`ApiException(f'Unable to find taint with "{taint_key}" key')`; otherwise
`taints.pop(index)` for each index in descending order and call `Node.update`
with the resulting list.  `pop` on descending indexes is `List.eraseIdx`
folded right-to-left over the ascending index list. -/
def remove_taint (taints : List Taint) (taint_key : String) : Except Err (List Taint) :=
  let indexes := removeIndexes taints taint_key
  if indexes.isEmpty then
    .error (.apiException ("Unable to find taint with \x22" ++ taint_key ++ "\x22 key"))
  else
    .ok (indexes.foldr (fun i acc => acc.eraseIdx i) taints)

/-! ## backup.py: state and environment

The catalog state joins the ZFS snapshot namespace with the on-disk backup
directory tree; collaborator calls are modelled through `BackupEnv`. -/

/-- The storage-side state `backup.py` reads and mutates: the ZFS snapshots of
the applications dataset (full id `dataset@snapname`, with the `creation`
property parsed as a number), the backup directory names present under
`/mnt/<dataset>/backups`, whether that base directory itself exists, the child
datasets of `<dataset>/releases`, and the entries (`os.listdir`) inside each
backup directory. -/
structure BackupState where
  snapshots : List (String × Nat)
  dirs : List String
  baseDirExists : Bool
  releasesDatasets : List String
  dirContents : String → List String

/-- Collaborator-call outcomes for `backup.py`.  `pool_configured` and
`passthrough_mode` model `kubernetes.pool_configured` and
`kubernetes.config`; `validate_k8s_setup` is `kubernetes.validate_k8s_setup`
(true = does not raise); `validate_snapshot_name` is the zfs validation
helper; `chart_releases` the names returned by `chart.release.query`;
`timestamp` the `datetime.utcnow()` strftime string and `now` the creation
time a newly taken snapshot gets; `snapshotDeleteOk` whether the underlying
recursive snapshot delete succeeds. -/
structure BackupEnv where
  pool_configured : Bool
  passthrough_mode : Bool
  dataset : String
  validate_k8s_setup : Bool
  validate_snapshot_name : String → Bool
  chart_releases : List String
  timestamp : String
  now : Nat
  snapshotDeleteOk : String → Bool

/-- One entry of the dict returned by `list_backups`. -/
structure BackupEntry where
  name : String
  snapshot_name : String
  created_on : Nat
  backup_path : String
  releases : List String
  deriving Repr, DecidableEq

/-- `backup.py` `list_backups()`: returns `{}` when no pool is configured or
passthrough mode is on; otherwise, for every snapshot whose name starts with
`f'{dataset}@{BACKUP_NAME_PREFIX}'`, derive the backup name (the remainder
after that fixed lead — `split('@', 1)[-1].split(BACKUP_NAME_PREFIX, 1)[-1]`
for snapshots of this shape, ZFS dataset names containing no `@`), skip it if
its directory no longer exists, and otherwise emit the entry with the
snapshot's creation time and the directory entries filtered to live release
datasets. -/
def list_backups (env : BackupEnv) (st : BackupState) : List BackupEntry :=
  if !env.pool_configured || env.passthrough_mode then []
  else
    (st.snapshots.filter
        (fun s => strStartsWith s.1 (env.dataset ++ "@" ++ BACKUP_NAME_PREFIX))).filterMap fun s =>
      if st.dirs.contains (strDrop s.1 (env.dataset ++ "@" ++ BACKUP_NAME_PREFIX).length) then
        some { name := strDrop s.1 (env.dataset ++ "@" ++ BACKUP_NAME_PREFIX).length
               snapshot_name := s.1
               created_on := s.2
               backup_path := "/mnt/" ++ env.dataset ++ "/backups/"
                 ++ strDrop s.1 (env.dataset ++ "@" ++ BACKUP_NAME_PREFIX).length
               releases := (st.dirContents
                   (strDrop s.1 (env.dataset ++ "@" ++ BACKUP_NAME_PREFIX).length)).filter
                 (fun r => st.releasesDatasets.contains r) }
      else none

/-- Lookup in the dict built by `list_backups` (`backups[backup_name] = ...`
overwrites earlier entries with the same key, so the last matching entry
wins). -/
def backupsLookup (backups : List BackupEntry) (name : String) : Option BackupEntry :=
  backups.reverse.find? (fun b => b.name == name)

/-- `backup.py` `backup_chart_releases(job, backup_name)`.  Returns the new
state and either the backup name or the raised error.  Sequence as in the
source: validate the k8s setup; default the name to a timestamp; reject
invalid snapshot-name fragments; raise `EEXIST` if the snapshot already
exists; raise `EEXIST` if the name is already in `list_backups()`;
`os.makedirs(backup_base_dir, exist_ok=True)`; `os.makedirs(backup_dir)`
(raises `FileExistsError`, errno `EEXIST`, if the directory exists); export
every chart release into the new directory; take the recursive snapshot. -/
def backup_chart_releases (env : BackupEnv) (st : BackupState) (backup_name : Option String) :
    BackupState × Except Err String :=
  if !env.validate_k8s_setup then
    (st, .error (.callError "validate_k8s_setup failed" none))
  else
    let name := backup_name.getD env.timestamp
    if !env.validate_snapshot_name ("a@" ++ name) then
      (st, .error (.callError (name ++ " is not a valid snapshot name. It should be a valid ZFS snapshot name") none))
    else
      let snap_name := BACKUP_NAME_PREFIX ++ name
      let snap_id := env.dataset ++ "@" ++ snap_name
      if st.snapshots.any (fun s => s.1 == snap_id) then
        (st, .error (.callError (snap_name ++ " snapshot already exists") (some EEXIST)))
      else if (backupsLookup (list_backups env st) name).isSome then
        (st, .error (.callError ("Backup with " ++ name ++ " already exists") (some EEXIST)))
      else
        let st1 := { st with baseDirExists := true }
        if st1.dirs.contains name then
          (st1, .error (.osError EEXIST "File exists"))
        else
          let st2 := { st1 with
            dirs := name :: st1.dirs
            dirContents := fun d => if d = name then env.chart_releases else st1.dirContents d }
          let st3 := { st2 with snapshots := (snap_id, env.now) :: st2.snapshots }
          (st3, .ok name)

/-- Modelled from the spec: the `zfs.snapshot.delete` middleware method is not
part of this repository's sources; per the spec (SnapshotStore), `delete` is a
"recursive delete; best-effort, does not fail the overall backup-delete
operation if the underlying delete errors (logged, not raised) — directory
removal still proceeds".  `ok` tells whether the underlying delete succeeded;
the call never raises. -/
def snapshotDeleteBestEffort (ok : Bool) (snapshots : List (String × Nat))
    (snapshot_name : String) : List (String × Nat) :=
  if ok then snapshots.filter (fun s => !(s.1 == snapshot_name)) else snapshots

/-- `backup.py` `delete_backup(backup_name)`: validate the setup, look the
name up in `list_backups()` (`ENOENT` if absent), delete the snapshot
(best-effort, see `snapshotDeleteBestEffort`), then
`shutil.rmtree(backup_path, True)` (ignore-errors directory removal). -/
def delete_backup (env : BackupEnv) (st : BackupState) (backup_name : String) :
    BackupState × Except Err Unit :=
  if !env.validate_k8s_setup then
    (st, .error (.callError "validate_k8s_setup failed" none))
  else
    match backupsLookup (list_backups env st) backup_name with
    | none => (st, .error (.callError ("Backup " ++ backup_name ++ " does not exist") (some ENOENT)))
    | some backup =>
        let st1 := { st with
          snapshots := snapshotDeleteBestEffort (env.snapshotDeleteOk backup.snapshot_name)
            st.snapshots backup.snapshot_name }
        let st2 := { st1 with dirs := st1.dirs.filter (fun d => !(d == backup.name)) }
        (st2, .ok ())

/-! ### backup.py: `post_system_update_hook` -/

/-- The retention `while` loop of `post_system_update_hook`:
`while len(backups) >= 3: backup = backups.pop(0); try: delete; except: log;
break`.  `del` is the `kubernetes.delete_backup` call (threading catalog
state).  Returns the final state, the trace of attempted deletes as
`(name, succeeded)` pairs in attempt order, and whether the loop stopped early
on a failure. -/
def hookPrune (del : BackupState → String → BackupState × Except Err Unit) :
    BackupState → List BackupEntry → BackupState × List (String × Bool) × Bool
  | st, [] => (st, [], false)
  | st, b :: rest =>
      if 3 ≤ (b :: rest).length then
        match (del st b.name).2 with
        | .ok _ =>
            let r := hookPrune del (del st b.name).1 rest
            (r.1, (b.name, true) :: r.2.1, r.2.2)
        | .error _ => ((del st b.name).1, [(b.name, false)], true)
      else (st, [], false)

/-- Sorting `backups.sort(key=lambda d: d['created_on'])` (stable ascending
sort by creation time). -/
def sortByCreated (backups : List BackupEntry) : List BackupEntry :=
  backups.insertionSort (fun a b => a.created_on ≤ b.created_on)

/-- The retention phase of `post_system_update_hook`: filter the catalog to
update-triggered backups, and when 3 or more exist, sort ascending by creation
time and run the delete loop. -/
def hookRetention (del : BackupState → String → BackupState × Except Err Unit)
    (st : BackupState) (backups : List BackupEntry) :
    BackupState × List (String × Bool) × Bool :=
  if 3 ≤ backups.length then hookPrune del st (sortByCreated backups)
  else (st, [], false)

/-- `backup.py` `post_system_update_hook(middleware)`: nothing to do when no
dataset is configured; otherwise prune update-triggered backups (names
starting with `UPDATE_BACKUP_PREFIX`) via the retention loop, then create a
new `f'{UPDATE_BACKUP_PREFIX}-{timestamp}'` backup (a failure of that job is
logged, not raised). -/
def post_system_update_hook (env : BackupEnv) (st : BackupState) : BackupState :=
  if env.dataset = "" then st
  else
    let backups := (list_backups env st).filter
      (fun b => strStartsWith b.name UPDATE_BACKUP_PREFIX)
    let pruned := hookRetention (fun s n => delete_backup env s n) st backups
    (backup_chart_releases env pruned.1 (some (UPDATE_BACKUP_PREFIX ++ "-" ++ env.timestamp))).1

/-- The update-triggered backup names present in the catalog. -/
def updateBackupNames (env : BackupEnv) (st : BackupState) : List String :=
  ((list_backups env st).filter (fun b => strStartsWith b.name UPDATE_BACKUP_PREFIX)).map
    (fun b => b.name)

/-! ## lifecycle.py: `post_start_impl` / `post_start_internal`

Each polling loop of the source has the shape
`while timeout > 0: <poll>; if ok: break; sleep(step); timeout -= step`
with `timeout` an exact multiple of the fixed `step`, so it makes exactly
`timeout / step` polls; `pollBreaks ok i n` runs such a loop for `n`
remaining polls starting at attempt index `i` and returns whether it broke
out.  The `while/else` of the source raises exactly when the loop did not
break. -/

/-- Bounded polling loop; `true` iff some poll among attempts
`i, i+1, …, i+n-1` succeeded (the loop `break`s). -/
def pollBreaks (ok : Nat → Bool) : Nat → Nat → Bool
  | _, 0 => false
  | i, n + 1 => if ok i then true else pollBreaks ok (i + 1) n

/-- Collaborator-call outcomes for `post_start_impl` / `post_start_internal`.
Fields indexed by `Nat` give the result of the poll made at that attempt
index.  Errors are the stringified exceptions (`str(e)`) the `except` clause
of `post_start_impl` sees. -/
structure LifecycleEnv where
  nodeConfigured : Nat → Bool
  nodeError : String
  addTaints : Except String Unit
  setupCni : Except String Unit
  gpuSetup : Except String Unit
  crdsPresent : Nat → Bool
  storageClassSetup : Except String Unit
  snapshotClassSetup : Except String Unit
  scaleDownLocked : Except String Unit
  appMigration : Except String Unit
  removeTaints : Except String Unit
  nodeTaints : Nat → List Taint
  podsRunning : Nat → Bool
  addRoutes : Except String Unit
  refreshEventsState : Except String Unit
  alertOneshotDelete : Except String Unit

/-- `lifecycle.py` `ensure_k8s_crd_are_available()`: retry (up to 5 sleeps)
until the required CRDs are all reported; never raises — it returns the number
of sleeps taken, which the caller ignores. -/
def ensure_k8s_crd_are_available (present : Nat → Bool) : Nat :=
  go 0 5
where
  go (i retries : Nat) : Nat :=
    match retries with
    | 0 => i
    | r + 1 => if present i then i else go (i + 1) r

/-- The timeout message of the taint-clear loop,
`f'Timed out waiting for {", ".join(keys)!r} taints to be removed'`
(`!r` wraps the joined keys in single quotes). -/
def taintTimeoutMsg (taints : List Taint) : String :=
  "Timed out waiting for " ++ "'" ++ String.intercalate ", " (taints.map (fun t => t.key))
    ++ "'" ++ " taints to be removed"

/-- The timeout message of the pod-running loop in `post_start_internal`. -/
def podTimeoutMsg : String :=
  "Kube-router routes not applied as timed out waiting for pods to execute"

/-- `lifecycle.py` `post_start_internal()`: add the start taint, set up CNI
and GPU support; ensure CRDs / default storage class / default snapshot class
(a failure there re-raised as `'Failed to configure PV/PVCs support: …'`);
scale down workloads on locked paths; run app migrations; remove the
`ix-svc-*` taints; wait (600 s budget, 5 s interval = 120 polls) for the taint
list to clear, else raise the taint timeout error (naming the taints of the
last poll, attempt 119); wait (600 s budget, 5 s interval = 120 polls) for at
least one pod in `Running` phase, else raise the pod timeout error; finally
add kube-router routes. -/
def post_start_internal (env : LifecycleEnv) : Except String Unit := do
  let _ ← env.addTaints
  let _ ← env.setupCni
  let _ ← env.gpuSetup
  let _ := ensure_k8s_crd_are_available env.crdsPresent
  let _ ← match env.storageClassSetup with
    | .error e => .error ("Failed to configure PV/PVCs support: " ++ e)
    | .ok _ => (.ok () : Except String Unit)
  let _ ← match env.snapshotClassSetup with
    | .error e => .error ("Failed to configure PV/PVCs support: " ++ e)
    | .ok _ => (.ok () : Except String Unit)
  let _ ← env.scaleDownLocked
  let _ ← env.appMigration
  let _ ← env.removeTaints
  if pollBreaks (fun i => (env.nodeTaints i).isEmpty) 0 120 then
    if pollBreaks env.podsRunning 0 120 then
      env.addRoutes
    else
      .error podTimeoutMsg
  else
    .error (taintTimeoutMsg (env.nodeTaints 119))

/-- `lifecycle.py` `post_start_impl()`'s `try` block: wait (60 s budget, 2 s
interval = 30 polls) for the node to report configured, else raise
`'Unable to configure node: …'`; then `post_start_internal()`;
`add_iptables_rules()` never raises (failures are logged and the loop
breaks). -/
def postStartTryBlock (env : LifecycleEnv) : Except String Unit :=
  if pollBreaks env.nodeConfigured 0 30 then post_start_internal env
  else .error ("Unable to configure node: " ++ env.nodeError)

/-- `lifecycle.py` `post_start_impl()`: on a `try`-block exception `e`, set
the status to `Status.FAILED.value` with `str(e)` attached, raise an alert and
re-raise; otherwise refresh events state, clear the alert and set the status
to `Status.RUNNING.value`.  Returns the overall result together with the
status set by this run (`none` when no `set_status` call was reached: an
exception inside the `else` clause propagates without touching the status). -/
def post_start_impl (env : LifecycleEnv) : Except String Unit × Option APPS_STATUS :=
  match postStartTryBlock env with
  | .error e => (.error e, set_status (Status.FAILED.value) (some e))
  | .ok _ =>
      match (do
        let _ ← env.refreshEventsState
        env.alertOneshotDelete : Except String Unit) with
      | .error e => (.error e, none)
      | .ok _ => (.ok (), set_status (Status.RUNNING.value) none)

/-! ## restore.py: `restore_backup`

The restore job is embedded as a function from an environment of
collaborator-call outcomes to the raised error (if any) together with an
observation log of its per-item effects: which releases were skipped, which
namespaces/secrets were recreated, which PV/CRD failures were logged, which
releases got a redeploy job, which were scaled, and whether the final catalog
sync step was reached. -/

/-- Python-dict lookup in an association list built by insertion with
overwrite (`d[k] = v`): the last binding of a key wins. -/
def dictLookup {α : Type} (l : List (String × α)) (k : String) : Option α :=
  (l.reverse.find? (fun p => p.1 == k)).map (fun p => p.2)

/-- A secret file inside a release's exported `secrets` directory. -/
structure SecretFile where
  name : String
  doc : String
  deriving Repr, DecidableEq

/-- One per-release directory under the backup path, as `restore_backup`
reads it: whether `namespace.yaml` and the `secrets` directory exist, the
namespace's `metadata.name`, the secret files, and whether / with which
content `workloads_replica_counts.json` exists (its absence makes the
unguarded `open` raise). -/
structure ReleaseBackupDir where
  hasNamespaceYaml : Bool
  namespaceName : String
  hasSecretsDir : Bool
  secretFiles : List SecretFile
  hasReplicaFile : Bool
  replicaCounts : List (String × Nat)
  deriving Repr, DecidableEq

/-- One value of the `pv_info` map a release's restore data may carry:
the PV's backing dataset, the ZFS-volume object name (`zv_details`
`metadata.name`) and the PV object name (`pv['name']`). -/
structure PvEntry where
  dataset : String
  zvName : String
  name : String
  deriving Repr, DecidableEq

/-- The per-release dict `restore_backup` accumulates in
`restored_chart_releases`: the loaded replica counts, the optional `pv_info`
map (a Python dict key that phase 1 never writes — reading it when absent
raises `KeyError`), and the `resources` attached after the post-redeploy
re-query. -/
structure RestoredData where
  replica_counts : List (String × Nat)
  pv_info : Option (List (String × PvEntry))
  resources : Option (List String)
  deriving Repr, DecidableEq

/-- `chart_releases_mapping[name]`: the release's on-disk chart path and
version, and the CRD files under `<path>/charts/<version>/crds` (`none` when
that directory does not exist). -/
structure ChartReleaseMeta where
  path : String
  version : String
  crdFiles : Option (List String)
  deriving Repr, DecidableEq

/-- Observation log of a `restore_backup` run. -/
structure RestoreLog where
  skipped : List String
  namespacesCreated : List String
  secretsCreated : List (String × String)
  pvFailureLogs : List (String × List String)
  crdFailureLogs : List (String × List String)
  redeployed : List String
  scaled : List String
  catalogSyncReached : Bool
  deriving Repr, DecidableEq

/-- The empty log at the start of a restore run. -/
def emptyRestoreLog : RestoreLog :=
  ⟨[], [], [], [], [], [], [], false⟩

/-- Collaborator-call outcomes for `restore_backup`.  `listBackup` is the
`kubernetes.list_backups` lookup of the backup name, giving that backup and
its directory listing; the `Except Err Unit` fields are the sequential
infrastructure steps of the source (service stop, cni-config clear, catalog
sync-job handling, fresh-dataset delete, snapshot rollback, fresh-dataset
recreate, k3s directory cleanup, service start); `clusterReady i` is the
`while True` node-ready poll at attempt `i` and `readyFuel` bounds how many
polls the embedding evaluates (the source loop is unbounded); the remaining
fields give the per-object outcomes of the Kubernetes/ZFS/chart calls of
the per-release loops. -/
structure RestoreEnv where
  listBackup : String → Option (List (String × ReleaseBackupDir))
  stopService : Except Err Unit
  clearCniConfig : Except Err Unit
  syncJobHandling : Except Err Unit
  deleteFreshDatasets : Except Err Unit
  rollbackSnapshot : Except Err Unit
  recreateFreshDatasets : Except Err Unit
  cleanK3sDirs : Except Err Unit
  startService : Except Err Unit
  clusterReady : Nat → Bool
  readyFuel : Nat
  releasesDatasets : List String
  createNamespace : String → Except Err Unit
  createSecret : String → String → Except Err Unit
  pool : String
  datasets : List String
  zvCreate : String → Except Err Unit
  pvCreate : String → Except Err Unit
  chartReleasesMapping : List (String × ChartReleaseMeta)
  applyYaml : String → Except Err Unit
  chartReleasesAfter : List String
  releaseResources : String → List String
  scaleRelease : String → Except Err Unit
  catalogSyncError : Option String

/-- The number of taints on a node fully matching (key, effect, value) a
given taint dict. -/
def countMatching (taints : List Taint) (t : Taint) : Nat :=
  (taints.filter (fun x => taintMatches x t)).length

/-- The message text of a raised error, as interpolated by the source's
f-string log lines. -/
def Err.message : Err → String
  | .callError m _ => m
  | .osError _ m => m
  | .keyError k => k
  | .apiException m => m

/-- `RE_POOL.sub(f'{k8s_pool}\1', s)` with `RE_POOL = ^.*?(/.*)`: replace
everything before the first `/` with the pool name; a string without `/` has
no match and is returned unchanged. -/
def poolSub (pool s : String) : String :=
  if (s.data.takeWhile (fun c => c ≠ '/')).length = s.data.length then s
  else pool ++ String.mk (s.data.drop (s.data.takeWhile (fun c => c ≠ '/')).length)

/-- Run the sequential infrastructure steps (source lines up to the start of
the per-release loop); the first exception aborts the restore. -/
def seqSteps : List (Except Err Unit) → Option Err
  | [] => none
  | .ok _ :: rest => seqSteps rest
  | .error e :: _ => some e

/-- The per-secret loop of the import phase: each secret is created under the
recreated namespace; an exception aborts the restore (it is not caught). -/
def createSecretsLoop (env : RestoreEnv) (ns : String) :
    List SecretFile → RestoreLog → RestoreLog × Option Err
  | [], log => (log, none)
  | s :: rest, log =>
      match env.createSecret ns s.name with
      | .error e => (log, some e)
      | .ok _ =>
          createSecretsLoop env ns rest
            { log with secretsCreated := log.secretsCreated ++ [(ns, s.name)] }

/-- `sorted(os.listdir(secrets_dir))`: the secret files in filename order. -/
def sortSecrets (files : List SecretFile) : List SecretFile :=
  files.insertionSort (fun a b => a.name ≤ b.name)

/-- Phase 1 of `restore_backup` — the per-release import loop.  For each entry
of the backup directory listing: skip (log, continue) when the release's
dataset is gone; skip (log, continue) when `namespace.yaml` or the `secrets`
directory is missing or the `secrets` directory is empty; otherwise recreate
the namespace, recreate every secret in filename order, and read the replica
counts into the accumulated `restored_chart_releases` entry (which gets no
`pv_info` key).  Uncaught collaborator exceptions abort the whole restore. -/
def phase1 (env : RestoreEnv) :
    List (String × ReleaseBackupDir) → RestoreLog → List (String × RestoredData) →
    RestoreLog × List (String × RestoredData) × Option Err
  | [], log, acc => (log, acc, none)
  | (release_name, d) :: rest, log, acc =>
      if !(env.releasesDatasets.contains release_name) then
        phase1 env rest { log with skipped := log.skipped ++ [release_name] } acc
      else if (!d.hasNamespaceYaml || !d.hasSecretsDir) || d.secretFiles.isEmpty then
        phase1 env rest { log with skipped := log.skipped ++ [release_name] } acc
      else
        match env.createNamespace d.namespaceName with
        | .error e => (log, acc, some e)
        | .ok _ =>
            let log1 := { log with namespacesCreated := log.namespacesCreated ++ [d.namespaceName] }
            match createSecretsLoop env d.namespaceName (sortSecrets d.secretFiles) log1 with
            | (log2, some e) => (log2, acc, some e)
            | (log2, none) =>
                if !d.hasReplicaFile then
                  (log2, acc, some (.osError ENOENT "workloads_replica_counts.json"))
                else
                  phase1 env rest log2
                    (acc ++ [(release_name,
                      { replica_counts := d.replicaCounts, pv_info := none, resources := none })])

/-- The best-effort PV/PVC recreation loop of the reconciliation phase:
locate the (pool-substituted) PV dataset, create the ZFS volume, create the
PV; every failure is appended to `failed_pv_restores` and the loop
continues. -/
def pvLoop (env : RestoreEnv) :
    List (String × PvEntry) → List String → List String
  | [], fails => fails
  | (pvc, pv) :: rest, fails =>
      let ds := poolSub env.pool pv.dataset
      if !(env.datasets.contains ds) then
        pvLoop env rest
          (fails ++ ["Unable to locate PV dataset " ++ ds ++ " for " ++ pvc ++ " PVC."])
      else
        match env.zvCreate pv.zvName with
        | .error e =>
            pvLoop env rest
              (fails ++ ["Unable to create ZFS Volume for " ++ pvc ++ " PVC: " ++ e.message])
        | .ok _ =>
            match env.pvCreate pv.name with
            | .error e =>
                pvLoop env rest
                  (fails ++ ["Unable to create PV for " ++ pvc ++ " PVC: " ++ e.message])
            | .ok _ => pvLoop env rest fails

/-- The best-effort CRD application loop: every failure is appended to
`failed_crds` and the loop continues. -/
def crdLoop (env : RestoreEnv) : List String → List String → List String
  | [], fails => fails
  | crd_path :: rest, fails =>
      match env.applyYaml crd_path with
      | .error e =>
          crdLoop env rest
            (fails ++ ["Unable to create CRD(s) at " ++ crd_path ++ ": " ++ e.message])
      | .ok _ => crdLoop env rest fails

/-- Phase 2 of `restore_backup` — the reconciliation loop over
`restored_chart_releases`.  Its first statement iterates
`restored_chart_releases[chart_release]['pv_info'].items()`; `'pv_info'` is a
plain dict access, raising `KeyError` when phase 1 did not write the key.
Then the chart is looked up in `chart_releases_mapping` (another plain dict
access), CRDs are applied best-effort, and the release's redeploy job is
created unconditionally. -/
def phase2 (env : RestoreEnv) :
    List (String × RestoredData) → RestoreLog → RestoreLog × Option Err
  | [], log => (log, none)
  | (chart_release, data) :: rest, log =>
      match data.pv_info with
      | none => (log, some (.keyError "pv_info"))
      | some pv_info =>
          let failed_pv_restores := pvLoop env pv_info []
          let log1 :=
            if failed_pv_restores.isEmpty then log
            else { log with pvFailureLogs := log.pvFailureLogs ++ [(chart_release, failed_pv_restores)] }
          match dictLookup env.chartReleasesMapping chart_release with
          | none => (log1, some (.keyError chart_release))
          | some meta =>
              let failed_crds :=
                match meta.crdFiles with
                | none => []
                | some files =>
                    crdLoop env
                      (files.map (fun f => meta.path ++ "/charts/" ++ meta.version ++ "/crds/" ++ f)) []
              let log2 :=
                if failed_crds.isEmpty then log1
                else { log1 with crdFailureLogs := log1.crdFailureLogs ++ [(chart_release, failed_crds)] }
              phase2 env rest { log2 with redeployed := log2.redeployed ++ [chart_release] }

/-- The post-redeploy re-query: drop restored releases that no longer appear
in `chart.release.query` and attach the live `resources` of the others. -/
def restoredFilter (env : RestoreEnv) (restored : List (String × RestoredData)) :
    List (String × RestoredData) :=
  restored.filterMap fun p =>
    if env.chartReleasesAfter.contains p.1 then
      some (p.1, { p.2 with resources := some (env.releaseResources p.1) })
    else none

/-- The workload-scaling loop: `chart.release.scale_release_internal` per
remaining restored release; an exception aborts the restore (it is not
caught). -/
def scaleLoop (env : RestoreEnv) :
    List (String × RestoredData) → RestoreLog → RestoreLog × Option Err
  | [], log => (log, none)
  | (name, _) :: rest, log =>
      match env.scaleRelease name with
      | .error e => (log, some e)
      | .ok _ => scaleLoop env rest { log with scaled := log.scaled ++ [name] }

/-- `restore.py` `restore_backup(job, backup_name)`: backup lookup (`ENOENT`
when unknown); sequential infrastructure steps (stop service, clear config,
catalog-sync job handling, fresh-dataset delete, rollback, fresh-dataset
recreate, k3s cleanup, service start); the unbounded node-ready poll; the
per-release import loop (phase 1); the reconciliation loop (phase 2); the
redeploy-job waits, re-query and bulk redeploy; the workload-scaling loop;
and the final catalog sync whose failure is logged, not raised. -/
def restore_backup (env : RestoreEnv) (backup_name : String) :
    RestoreLog × Except Err Unit :=
  match env.listBackup backup_name with
  | none =>
      (emptyRestoreLog,
        .error (.callError ("Backup " ++ backup_name ++ " does not exist") (some ENOENT)))
  | some releases =>
      match seqSteps [env.stopService, env.clearCniConfig, env.syncJobHandling,
          env.deleteFreshDatasets, env.rollbackSnapshot, env.recreateFreshDatasets,
          env.cleanK3sDirs, env.startService] with
      | some e => (emptyRestoreLog, .error e)
      | none =>
          if !(pollBreaks env.clusterReady 0 env.readyFuel) then
            (emptyRestoreLog,
              .error (.callError "node-ready poll budget of the embedding exhausted" none))
          else
            match phase1 env releases emptyRestoreLog [] with
            | (log, _, some e) => (log, .error e)
            | (log, restored, none) =>
                match phase2 env restored log with
                | (log2, some e) => (log2, .error e)
                | (log2, none) =>
                    let restored2 := restoredFilter env restored
                    match scaleLoop env restored2 log2 with
                    | (log3, some e) => (log3, .error e)
                    | (log3, none) => ({ log3 with catalogSyncReached := true }, .ok ())

/-! ## Concrete sample environments and states (used by witnesses and
counterexamples) -/

/-- A healthy backup environment: pool configured, passthrough off, every
collaborator call succeeding. -/
def sampleEnv : BackupEnv :=
  { pool_configured := true, passthrough_mode := false,
    dataset := "tank/ix-applications", validate_k8s_setup := true,
    validate_snapshot_name := fun _ => true, chart_releases := [],
    timestamp := "2024-01-01", now := 7, snapshotDeleteOk := fun _ => true }

/-- `sampleEnv` with no kubernetes pool configured. -/
def sampleEnvUnconfigured : BackupEnv :=
  { sampleEnv with pool_configured := false }

/-- `sampleEnv` with the underlying snapshot delete always failing. -/
def sampleEnvDeleteFails : BackupEnv :=
  { sampleEnv with snapshotDeleteOk := fun _ => false }

/-- A state holding the single backup `b1` (snapshot and directory). -/
def sampleStB1 : BackupState :=
  { snapshots := [("tank/ix-applications@ix-applications-backup-b1", 3)],
    dirs := ["b1"], baseDirExists := true, releasesDatasets := [],
    dirContents := fun _ => [] }

/-- A state where the snapshot of backup `dup` still exists but its directory
is gone. -/
def sampleStDup : BackupState :=
  { snapshots := [("tank/ix-applications@ix-applications-backup-dup", 1)],
    dirs := [], baseDirExists := false, releasesDatasets := [],
    dirContents := fun _ => [] }

/-- A state holding exactly two update-triggered backups (creation times 1
and 2). -/
def sampleStTwoUpdates : BackupState :=
  { snapshots :=
      [("tank/ix-applications@ix-applications-backup-system-update-a", 1),
       ("tank/ix-applications@ix-applications-backup-system-update-b", 2)],
    dirs := ["system-update-a", "system-update-b"], baseDirExists := true,
    releasesDatasets := [], dirContents := fun _ => [] }

/-- Three update-triggered backup entries, listed out of creation order
(creation times 2, 1, 3). -/
def sampleThreeUpdateEntries : List BackupEntry :=
  [{ name := "u2", snapshot_name := "s2", created_on := 2, backup_path := "p2", releases := [] },
   { name := "u1", snapshot_name := "s1", created_on := 1, backup_path := "p1", releases := [] },
   { name := "u3", snapshot_name := "s3", created_on := 3, backup_path := "p3", releases := [] }]

/-- A delete collaborator that always succeeds and leaves the state alone. -/
def okDel : BackupState → String → BackupState × Except Err Unit :=
  fun s _ => (s, .ok ())

/-- A delete collaborator that always fails. -/
def failDel : BackupState → String → BackupState × Except Err Unit :=
  fun s _ => (s, .error (.callError "delete failed" none))

/-- A lifecycle environment where every step succeeds, the node configures at
once, taints clear at once — but no pod ever reaches the `Running` phase. -/
def sampleLifecycleEnv : LifecycleEnv :=
  { nodeConfigured := fun _ => true, nodeError := "",
    addTaints := .ok (), setupCni := .ok (), gpuSetup := .ok (),
    crdsPresent := fun _ => true, storageClassSetup := .ok (),
    snapshotClassSetup := .ok (), scaleDownLocked := .ok (),
    appMigration := .ok (), removeTaints := .ok (),
    nodeTaints := fun _ => [], podsRunning := fun _ => false,
    addRoutes := .ok (), refreshEventsState := .ok (),
    alertOneshotDelete := .ok () }

/-- A healthy exported release directory (`app1`). -/
def sampleReleaseGood : ReleaseBackupDir :=
  { hasNamespaceYaml := true, namespaceName := "ix-app1", hasSecretsDir := true,
    secretFiles := [{ name := "s1", doc := "doc1" }], hasReplicaFile := true,
    replicaCounts := [("deployment-app1", 2)] }

/-- An exported release directory whose `secrets` directory is empty. -/
def sampleReleaseEmptySecrets : ReleaseBackupDir :=
  { hasNamespaceYaml := true, namespaceName := "ix-emptysec", hasSecretsDir := true,
    secretFiles := [], hasReplicaFile := true, replicaCounts := [] }

/-- An exported release directory missing its `namespace.yaml`. -/
def sampleReleaseNoYaml : ReleaseBackupDir :=
  { hasNamespaceYaml := false, namespaceName := "ix-noyaml", hasSecretsDir := true,
    secretFiles := [{ name := "s", doc := "d" }], hasReplicaFile := true,
    replicaCounts := [] }

/-- The chart metadata of the `app1` release (no `crds` directory). -/
def sampleChartMetaApp1 : ChartReleaseMeta :=
  { path := "/mnt/tank/ix-applications/releases/app1", version := "1.0.0", crdFiles := none }

/-- A restore environment where every collaborator call succeeds and the
backup `bk` holds the single healthy release `app1` whose dataset exists. -/
def sampleRestoreEnv : RestoreEnv :=
  { listBackup := fun n => if n = "bk" then some [("app1", sampleReleaseGood)] else none,
    stopService := .ok (), clearCniConfig := .ok (), syncJobHandling := .ok (),
    deleteFreshDatasets := .ok (), rollbackSnapshot := .ok (),
    recreateFreshDatasets := .ok (), cleanK3sDirs := .ok (), startService := .ok (),
    clusterReady := fun _ => true, readyFuel := 1,
    releasesDatasets := ["app1"],
    createNamespace := fun _ => .ok (), createSecret := fun _ _ => .ok (),
    pool := "tank", datasets := [],
    zvCreate := fun _ => .ok (), pvCreate := fun _ => .ok (),
    chartReleasesMapping := [("app1", sampleChartMetaApp1)],
    applyYaml := fun _ => .ok (), chartReleasesAfter := ["app1"],
    releaseResources := fun _ => [],
    scaleRelease := fun _ => .ok (), catalogSyncError := none }

/-- `sampleRestoreEnv` with the backup also holding a release whose dataset
is gone (`ghost`), one missing its `namespace.yaml` (`noyaml`) and one with an
empty `secrets` directory (`emptysec`), besides the healthy `app1`. -/
def sampleRestoreEnvSkips : RestoreEnv :=
  { sampleRestoreEnv with
    listBackup := fun n =>
      if n = "bk" then
        some [("ghost", sampleReleaseGood), ("noyaml", sampleReleaseNoYaml),
              ("emptysec", sampleReleaseEmptySecrets), ("app1", sampleReleaseGood)]
      else none,
    releasesDatasets := ["noyaml", "emptysec", "app1"] }

/-! ## Helper lemmas -/

theorem taintMatches_refl (t : Taint) : taintMatches t t = true := by
  simp [taintMatches]

theorem removeIndexesAux_succ (key : String) (l : List Taint) :
    ∀ i, removeIndexesAux key l (i + 1) = (removeIndexesAux key l i).map Nat.succ := by
  induction l with
  | nil => intro i; simp [removeIndexesAux]
  | cons t rest ih =>
      intro i
      by_cases h : (t.key == key) = true <;>
        simp [removeIndexesAux, h, ih (i + 1), ih i]

theorem foldr_eraseIdx_map_succ (t : Taint) (rest : List Taint) (is : List Nat) :
    (is.map Nat.succ).foldr (fun i acc => acc.eraseIdx i) (t :: rest)
      = t :: is.foldr (fun i acc => acc.eraseIdx i) rest := by
  induction is with
  | nil => rfl
  | cons i is' ih => simp [ih, List.eraseIdx_cons_succ]

theorem erase_fold_eq_filter (key : String) :
    ∀ l : List Taint,
      (removeIndexes l key).foldr (fun i acc => acc.eraseIdx i) l
        = l.filter (fun x => !(x.key == key)) := by
  intro l
  induction l with
  | nil => simp [removeIndexes, removeIndexesAux]
  | cons t rest ih =>
      simp only [removeIndexes, removeIndexesAux] at *
      by_cases h : (t.key == key) = true
      · rw [if_pos h, removeIndexesAux_succ, List.foldr_cons, foldr_eraseIdx_map_succ]
        simp [List.filter_cons, h, ih]
      · rw [if_neg h, removeIndexesAux_succ, foldr_eraseIdx_map_succ]
        simp only [List.filter_cons]
        simp [h, ih]

theorem removeIndexesAux_eq_nil_iff (key : String) (l : List Taint) :
    ∀ i, removeIndexesAux key l i = [] ↔ ∀ x ∈ l, (x.key == key) = false := by
  induction l with
  | nil => intro i; simp [removeIndexesAux]
  | cons t rest ih =>
      intro i
      by_cases h : (t.key == key) = true
      · simp only [removeIndexesAux, if_pos h]
        constructor
        · intro hc; exact absurd hc (by simp)
        · intro hall
          have ht := hall t (by simp)
          rw [h] at ht
          exact absurd ht (by simp)
      · simp only [removeIndexesAux, if_neg h]
        rw [ih (i + 1)]
        constructor
        · intro hall x hx
          rcases List.mem_cons.mp hx with rfl | hx'
          · simpa using h
          · exact hall x hx'
        · intro hall x hx
          exact hall x (List.mem_cons_of_mem _ hx)

/-! ## Claim theorems -/

/-- C9: `list_backups()` returns an empty map, without raising, whenever no
kubernetes pool is configured or the configuration has `passthrough_mode`
enabled, regardless of which snapshots or backup directories exist (the
embedded `list_backups` is a total function, so the guard returning `{}`
precedes every storage access). -/
theorem list_backups_unconfigured_empty (env : BackupEnv) (st : BackupState)
    (h : env.pool_configured = false ∨ env.passthrough_mode = true) :
    list_backups env st = [] := by
  rcases h with h | h <;> simp [list_backups, h]

/-- Witness for C9: a state holding a snapshot and its backup directory still
lists no backups when the pool is not configured. -/
theorem list_backups_unconfigured_empty_witness :
    sampleEnvUnconfigured.pool_configured = false ∧
    list_backups sampleEnvUnconfigured sampleStB1 = [] :=
  ⟨rfl, list_backups_unconfigured_empty _ _ (Or.inl rfl)⟩

/-- C10: every status update goes through `set_status`, which accepts exactly
the seven `Status` members and asserts on anything else; any status it
produces therefore carries one of the seven values, and `status()`
(`get_status_dict`) returns that value paired with the member's fixed
description, optionally extended with `:\n` and the error detail. -/
theorem set_status_member_invariant :
    (∀ s e, (set_status s e).isSome ↔ s ∈ statusMembers) ∧
    (∀ s e st, set_status s e = some st →
      st.status.value ∈ statusMembers ∧
      (get_status_dict st).1 = st.status.value ∧
      ((get_status_dict st).2 = STATUS_DESCRIPTIONS st.status ∨
        ∃ x, e = some x ∧
          (get_status_dict st).2 = STATUS_DESCRIPTIONS st.status ++ ":\n" ++ x)) := by
  constructor
  · intro s e
    constructor
    · intro h
      by_contra hs
      simp [set_status, hs] at h
    · intro hs
      have hof : ∃ st, Status.ofValue s = some st := by
        simp [statusMembers] at hs
        rcases hs with rfl | rfl | rfl | rfl | rfl | rfl | rfl <;> exact ⟨_, rfl⟩
      obtain ⟨st, hst⟩ := hof
      simp [set_status, hs, hst]
  · intro s e st h
    by_cases hs : s ∈ statusMembers
    · rw [set_status, if_pos hs] at h
      cases hof : Status.ofValue s with
      | none => rw [hof] at h; exact absurd h (by simp)
      | some st0 =>
          rw [hof] at h
          rcases e with _ | x
          · simp only [Option.some.injEq] at h
            rw [← h]
            exact ⟨by cases st0 <;> simp [Status.value, statusMembers], rfl, Or.inl rfl⟩
          · simp only [Option.some.injEq] at h
            rw [← h]
            refine ⟨by cases st0 <;> simp [Status.value, statusMembers], rfl, ?_⟩
            by_cases hx : x = ""
            · exact Or.inl (by simp [get_status_dict, hx])
            · exact Or.inr ⟨x, rfl, by simp [get_status_dict, hx]⟩
    · rw [set_status, if_neg hs] at h
      exact absurd h (by simp)

/-- Witness for C10: `set_status('FAILED', 'boom')` yields the `FAILED`
member with the fixed description extended by the error detail, and a
non-member string is rejected. -/
theorem set_status_member_invariant_witness :
    set_status "FAILED" (some "boom") =
      some ⟨Status.FAILED, "Application(s) have failed to start:\nboom"⟩ ∧
    (Status.FAILED.value ∈ statusMembers ∧
      (get_status_dict ⟨Status.FAILED, "Application(s) have failed to start:\nboom"⟩).1 =
        Status.FAILED.value ∧
      ((get_status_dict ⟨Status.FAILED, "Application(s) have failed to start:\nboom"⟩).2 =
          STATUS_DESCRIPTIONS Status.FAILED ∨
        ∃ x, (some "boom" : Option String) = some x ∧
          (get_status_dict ⟨Status.FAILED, "Application(s) have failed to start:\nboom"⟩).2 =
            STATUS_DESCRIPTIONS Status.FAILED ++ ":\n" ++ x)) ∧
    ¬ (set_status "BOGUS" none).isSome :=
  ⟨rfl,
    set_status_member_invariant.2 "FAILED" (some "boom") _ rfl,
    fun h => by
      have hm := (set_status_member_invariant.1 "BOGUS" none).mp h
      simp [statusMembers] at hm⟩

/-- C6: `addTaint` is idempotent — starting from a node whose taint list holds
at most one entry fully matching the taint dict (key, effect and value), one
call leaves exactly one matching entry, and a second identical call returns
without performing a node update, leaving the list unchanged. -/
theorem add_taint_idempotent (taints : List Taint) (t : Taint)
    (h : countMatching taints t ≤ 1) :
    countMatching (taintsAfterAdd taints t) t = 1 ∧
    add_taint (taintsAfterAdd taints t) t = none ∧
    taintsAfterAdd (taintsAfterAdd taints t) t = taintsAfterAdd taints t := by
  by_cases hany : taints.any (fun x => taintMatches x t) = true
  · have hafter : taintsAfterAdd taints t = taints := by
      simp [taintsAfterAdd, add_taint, hany]
    obtain ⟨x, hx, hmx⟩ := List.any_eq_true.mp hany
    have hpos : 0 < countMatching taints t := by
      have : x ∈ taints.filter (fun x => taintMatches x t) :=
        List.mem_filter.mpr ⟨hx, hmx⟩
      exact List.length_pos.mpr (List.ne_nil_of_mem this)
    have hone : countMatching taints t = 1 := Nat.le_antisymm h hpos
    refine ⟨by rw [hafter]; exact hone, ?_, ?_⟩
    · rw [hafter]; simp [add_taint, hany]
    · rw [hafter]; simp [taintsAfterAdd, add_taint, hany]
  · have hafter : taintsAfterAdd taints t = taints ++ [t] := by
      simp [taintsAfterAdd, add_taint, hany]
    have hnone : ∀ x ∈ taints, taintMatches x t = false := by
      intro x hx
      by_contra hmx
      exact hany (List.any_eq_true.mpr ⟨x, hx, by simpa using hmx⟩)
    have hcount : countMatching (taints ++ [t]) t = 1 := by
      unfold countMatching
      rw [List.filter_append]
      have h1 : taints.filter (fun x => taintMatches x t) = [] :=
        List.filter_eq_nil_iff.mpr (fun x hx => by simp [hnone x hx])
      simp [h1, taintMatches_refl]
    have hany2 : (taints ++ [t]).any (fun x => taintMatches x t) = true :=
      List.any_eq_true.mpr ⟨t, by simp, taintMatches_refl t⟩
    refine ⟨by rw [hafter]; exact hcount, ?_, ?_⟩
    · rw [hafter]; simp [add_taint, hany2]
    · rw [hafter]; simp [taintsAfterAdd, add_taint, hany2]

/-- Witness for C6: adding the same taint twice to a bare node leaves exactly
one matching entry and the second call is a no-op. -/
theorem add_taint_idempotent_witness :
    countMatching [] ⟨"ix-svc-start", "NoExecute", none⟩ ≤ 1 ∧
    (countMatching (taintsAfterAdd [] ⟨"ix-svc-start", "NoExecute", none⟩)
        ⟨"ix-svc-start", "NoExecute", none⟩ = 1 ∧
      add_taint (taintsAfterAdd [] ⟨"ix-svc-start", "NoExecute", none⟩)
        ⟨"ix-svc-start", "NoExecute", none⟩ = none ∧
      taintsAfterAdd (taintsAfterAdd [] ⟨"ix-svc-start", "NoExecute", none⟩)
          ⟨"ix-svc-start", "NoExecute", none⟩ =
        taintsAfterAdd [] ⟨"ix-svc-start", "NoExecute", none⟩) :=
  ⟨by decide, add_taint_idempotent [] ⟨"ix-svc-start", "NoExecute", none⟩ (by decide)⟩

/-- C7: `removeTaint(key)` raises the not-found `ApiException` when no taint
with that key exists (so no node update happens and the taint list is left
unchanged); otherwise it updates the node with every entry of that key
removed, regardless of effect or value. -/
theorem remove_taint_spec (taints : List Taint) (key : String) :
    ((∀ x ∈ taints, x.key ≠ key) →
      remove_taint taints key =
        .error (.apiException ("Unable to find taint with \x22" ++ key ++ "\x22 key"))) ∧
    ((∃ x ∈ taints, x.key = key) →
      remove_taint taints key = .ok (taints.filter (fun x => !(x.key == key)))) := by
  constructor
  · intro h
    have hnil : removeIndexes taints key = [] := by
      unfold removeIndexes
      exact (removeIndexesAux_eq_nil_iff key taints 0).mpr
        (fun x hx => by simpa using h x hx)
    simp [remove_taint, hnil]
  · rintro ⟨x, hx, hkey⟩
    have hne : removeIndexes taints key ≠ [] := by
      unfold removeIndexes
      intro hnil
      have := (removeIndexesAux_eq_nil_iff key taints 0).mp hnil x hx
      simp [hkey] at this
    have hempty : (removeIndexes taints key).isEmpty = false := by
      cases hidx : removeIndexes taints key with
      | nil => exact absurd hidx hne
      | cons a l => simp
    rw [remove_taint]
    simp only [hempty, Bool.false_eq_true, if_false]
    rw [erase_fold_eq_filter]

/-- Witness for C7: removing key `"a"` deletes both `"a"` entries whatever
their effect/value; removing the absent key `"c"` fails with the not-found
error. -/
theorem remove_taint_spec_witness :
    remove_taint
        [⟨"a", "NoExecute", none⟩, ⟨"b", "NoSchedule", some "v"⟩, ⟨"a", "NoSchedule", some "w"⟩]
        "c" =
      .error (.apiException ("Unable to find taint with \x22" ++ "c" ++ "\x22 key")) ∧
    remove_taint
        [⟨"a", "NoExecute", none⟩, ⟨"b", "NoSchedule", some "v"⟩, ⟨"a", "NoSchedule", some "w"⟩]
        "a" =
      .ok [⟨"b", "NoSchedule", some "v"⟩] :=
  ⟨(remove_taint_spec _ "c").1 (by decide),
    by
      have h := (remove_taint_spec
        [⟨"a", "NoExecute", none⟩, ⟨"b", "NoSchedule", some "v"⟩, ⟨"a", "NoSchedule", some "w"⟩]
        "a").2 ⟨⟨"a", "NoExecute", none⟩, by simp, rfl⟩
      simpa using h⟩


/-- Every backup listed by `list_backups` has an existing backup directory:
the directory-existence check precedes the emission of each entry. -/
theorem mem_list_backups_dirs (env : BackupEnv) (st : BackupState) :
    ∀ b ∈ list_backups env st, b.name ∈ st.dirs := by
  intro b hb
  unfold list_backups at hb
  by_cases hg : (!env.pool_configured || env.passthrough_mode) = true
  · rw [if_pos hg] at hb
    exact absurd hb (List.not_mem_nil b)
  · rw [if_neg hg] at hb
    obtain ⟨s, _, hmk⟩ := List.mem_filterMap.mp hb
    by_cases hd : st.dirs.contains
        (strDrop s.1 (env.dataset ++ "@" ++ BACKUP_NAME_PREFIX).length) = true
    · rw [if_pos hd, Option.some.injEq] at hmk
      rw [← hmk]
      simpa using hd
    · rw [if_neg hd] at hmk
      exact absurd hmk (by simp)

/-- A string is not a member of the list from which every occurrence of it
was just filtered out. -/
theorem not_mem_filter_ne_self (x : String) (l : List String) :
    x ∉ l.filter (fun d => !(d == x)) := by
  intro hx
  have hkeep := (List.mem_filter.mp hx).2
  simp at hkeep

/-- A name whose backup directory is absent is not in the catalog. -/
theorem backupsLookup_none_of_dirs (env : BackupEnv) (st : BackupState) (name : String)
    (h : name ∉ st.dirs) :
    backupsLookup (list_backups env st) name = none := by
  cases hc : backupsLookup (list_backups env st) name with
  | none => rfl
  | some b' =>
      exfalso
      have hmem : b' ∈ list_backups env st :=
        List.mem_reverse.mp (List.mem_of_find?_eq_some hc)
      have hname : b'.name = name := by simpa using List.find?_some hc
      exact h (hname ▸ mem_list_backups_dirs env st b' hmem)

/-- C2 (spec-modelled snapshot delete): for every backup name known to the
catalog, `delete_backup(name)` succeeds and a subsequent `list_backups()` no
longer contains the name — whatever the outcome of the underlying snapshot
delete, which is best-effort (`snapshotDeleteBestEffort`, modelled from the
spec since `zfs.snapshot.delete` is not part of these sources): the directory
removal still proceeds, and listing a backup requires its directory.  For an
unknown name, `delete_backup` raises `ENOENT` and leaves the state (hence the
catalog) unchanged. -/
theorem delete_backup_spec (env : BackupEnv) (st : BackupState) (name : String)
    (hval : env.validate_k8s_setup = true) :
    (backupsLookup (list_backups env st) name = none →
      delete_backup env st name =
        (st, .error (.callError ("Backup " ++ name ++ " does not exist") (some ENOENT)))) ∧
    (∀ b, backupsLookup (list_backups env st) name = some b →
      (delete_backup env st name).2 = .ok () ∧
      backupsLookup (list_backups env (delete_backup env st name).1) name = none) := by
  constructor
  · intro hnone
    simp [delete_backup, hval, hnone]
  · intro b hsome
    have hbname : b.name = name := by simpa using List.find?_some hsome
    have hstep : delete_backup env st name =
        ({ { st with
              snapshots := snapshotDeleteBestEffort (env.snapshotDeleteOk b.snapshot_name)
                st.snapshots b.snapshot_name } with
            dirs := st.dirs.filter (fun d => !(d == b.name)) }, .ok ()) := by
      simp [delete_backup, hval, hsome]
    refine ⟨by rw [hstep], ?_⟩
    apply backupsLookup_none_of_dirs
    rw [hstep]
    show name ∉ st.dirs.filter (fun d => !(d == b.name))
    rw [hbname]
    exact not_mem_filter_ne_self name st.dirs

/-- Witness for C2: deleting the listed backup `b1` while the underlying
snapshot delete fails (`snapshotDeleteOk` constantly false) still succeeds
and a subsequent listing no longer contains it. -/
theorem delete_backup_spec_witness :
    backupsLookup (list_backups sampleEnvDeleteFails sampleStB1) "b1" =
      some { name := "b1",
             snapshot_name := "tank/ix-applications@ix-applications-backup-b1",
             created_on := 3,
             backup_path := "/mnt/tank/ix-applications/backups/b1",
             releases := [] } ∧
    ((delete_backup sampleEnvDeleteFails sampleStB1 "b1").2 = .ok () ∧
      backupsLookup
        (list_backups sampleEnvDeleteFails
          (delete_backup sampleEnvDeleteFails sampleStB1 "b1").1) "b1" = none) :=
  ⟨by decide,
    (delete_backup_spec sampleEnvDeleteFails sampleStB1 "b1" rfl).2
      { name := "b1",
        snapshot_name := "tank/ix-applications@ix-applications-backup-b1",
        created_on := 3,
        backup_path := "/mnt/tank/ix-applications/backups/b1",
        releases := [] }
      (by decide)⟩

/-- C3: `backup(name)` when a backup of that name already exists — as a
snapshot of the applications dataset or as an on-disk backup directory —
fails with an `EEXIST` error (via the explicit duplicate checks, or via
`os.makedirs(backup_dir)` raising `FileExistsError`), and mutates neither the
snapshot set, nor the backup directories, nor the catalog reported by
`list_backups` (only the `backups` base directory may get created, which the
catalog does not read). -/
theorem backup_duplicate_eexist (env : BackupEnv) (st : BackupState) (name : String)
    (hval : env.validate_k8s_setup = true)
    (hvalid : env.validate_snapshot_name ("a@" ++ name) = true)
    (hdup : st.snapshots.any
        (fun s => s.1 == env.dataset ++ "@" ++ (BACKUP_NAME_PREFIX ++ name)) = true ∨
      name ∈ st.dirs) :
    (∃ e, (backup_chart_releases env st (some name)).2 = .error e ∧
      e.errnoOf = some EEXIST) ∧
    (backup_chart_releases env st (some name)).1.snapshots = st.snapshots ∧
    (backup_chart_releases env st (some name)).1.dirs = st.dirs ∧
    list_backups env (backup_chart_releases env st (some name)).1 =
      list_backups env st := by
  by_cases hsnap : st.snapshots.any
      (fun s => s.1 == env.dataset ++ "@" ++ (BACKUP_NAME_PREFIX ++ name)) = true
  · have hstep : backup_chart_releases env st (some name) =
        (st, .error (.callError (BACKUP_NAME_PREFIX ++ name ++ " snapshot already exists")
          (some EEXIST))) := by
      simp [backup_chart_releases, hval, hvalid, hsnap]
    exact ⟨⟨.callError (BACKUP_NAME_PREFIX ++ name ++ " snapshot already exists") (some EEXIST),
      by rw [hstep], rfl⟩, by rw [hstep], by rw [hstep], by rw [hstep]⟩
  · by_cases hlk : (backupsLookup (list_backups env st) name).isSome = true
    · have hstep : backup_chart_releases env st (some name) =
          (st, .error (.callError ("Backup with " ++ name ++ " already exists")
            (some EEXIST))) := by
        simp [backup_chart_releases, hval, hvalid, hsnap, hlk]
      exact ⟨⟨.callError ("Backup with " ++ name ++ " already exists") (some EEXIST),
        by rw [hstep], rfl⟩, by rw [hstep], by rw [hstep], by rw [hstep]⟩
    · have hdirs : st.dirs.contains name = true := by
        rcases hdup with h | h
        · exact absurd h hsnap
        · simpa using h
      have hdirsm : name ∈ st.dirs := by simpa using hdirs
      have hstep : backup_chart_releases env st (some name) =
          ({ st with baseDirExists := true }, .error (.osError EEXIST "File exists")) := by
        simp [backup_chart_releases, hval, hvalid, hsnap, hlk, hdirs, hdirsm]
      exact ⟨⟨.osError EEXIST "File exists", by rw [hstep], rfl⟩,
        by rw [hstep], by rw [hstep], by rw [hstep]; exact rfl⟩

/-- Witness for C3: a second `backup('dup')` call while the
`ix-applications-backup-dup` snapshot still exists fails with `EEXIST` and
leaves snapshots, directories and catalog untouched. -/
theorem backup_duplicate_eexist_witness :
    (sampleStDup.snapshots.any
        (fun s => s.1 == sampleEnv.dataset ++ "@" ++ (BACKUP_NAME_PREFIX ++ "dup")) = true ∨
      "dup" ∈ sampleStDup.dirs) ∧
    ((∃ e, (backup_chart_releases sampleEnv sampleStDup (some "dup")).2 = .error e ∧
        e.errnoOf = some EEXIST) ∧
      (backup_chart_releases sampleEnv sampleStDup (some "dup")).1.snapshots =
        sampleStDup.snapshots ∧
      (backup_chart_releases sampleEnv sampleStDup (some "dup")).1.dirs =
        sampleStDup.dirs ∧
      list_backups sampleEnv (backup_chart_releases sampleEnv sampleStDup (some "dup")).1 =
        list_backups sampleEnv sampleStDup) :=
  ⟨Or.inl (by decide),
    backup_duplicate_eexist sampleEnv sampleStDup "dup" rfl rfl (Or.inl (by decide))⟩

/-- A polling loop whose condition never holds does not break out. -/
theorem pollBreaks_false (ok : Nat → Bool) (h : ∀ j, ok j = false) :
    ∀ n i, pollBreaks ok i n = false := by
  intro n
  induction n with
  | zero => intro i; rfl
  | succ n ih => intro i; simp [pollBreaks, h i, ih (i + 1)]

/-- C5: when cluster start reaches the pod-readiness wait and no pod reports
the `Running` phase at any of the 120 polls of the 600-second budget (5-second
interval), `post_start_internal` raises the pod timeout error — whose message
mentions pods — and `post_start_impl`'s exception handler sets the lifecycle
status to `FAILED` with the error text attached to the fixed description. -/
theorem pod_timeout_sets_failed (env : LifecycleEnv)
    (hnode : pollBreaks env.nodeConfigured 0 30 = true)
    (haddT : env.addTaints = .ok ()) (hcni : env.setupCni = .ok ())
    (hgpu : env.gpuSetup = .ok ())
    (hsc : env.storageClassSetup = .ok ()) (hsnap : env.snapshotClassSetup = .ok ())
    (hscale : env.scaleDownLocked = .ok ()) (hmig : env.appMigration = .ok ())
    (hremove : env.removeTaints = .ok ())
    (htaints : pollBreaks (fun i => (env.nodeTaints i).isEmpty) 0 120 = true)
    (hpods : ∀ i, env.podsRunning i = false) :
    post_start_impl env =
      (.error podTimeoutMsg,
        some ⟨Status.FAILED, STATUS_DESCRIPTIONS Status.FAILED ++ ":\n" ++ podTimeoutMsg⟩) ∧
    "pods".data <:+: podTimeoutMsg.data := by
  have hloop : pollBreaks env.podsRunning 0 120 = false := pollBreaks_false _ hpods 120 0
  have hinternal : post_start_internal env = .error podTimeoutMsg := by
    simp [post_start_internal, haddT, hcni, hgpu, hsc, hsnap, hscale, hmig, hremove,
      htaints, hloop]
    rfl
  have htry : postStartTryBlock env = .error podTimeoutMsg := by
    simp [postStartTryBlock, hnode, hinternal]
  constructor
  · unfold post_start_impl
    rw [htry]
    rfl
  · decide

/-- Witness for C5: the environment where everything else succeeds but no pod
ever runs produces exactly the pod timeout failure and the `FAILED` status. -/
theorem pod_timeout_sets_failed_witness :
    pollBreaks sampleLifecycleEnv.nodeConfigured 0 30 = true ∧
    pollBreaks (fun i => (sampleLifecycleEnv.nodeTaints i).isEmpty) 0 120 = true ∧
    (post_start_impl sampleLifecycleEnv =
      (.error podTimeoutMsg,
        some ⟨Status.FAILED, STATUS_DESCRIPTIONS Status.FAILED ++ ":\n" ++ podTimeoutMsg⟩) ∧
    "pods".data <:+: podTimeoutMsg.data) :=
  ⟨by decide, by decide,
    pod_timeout_sets_failed sampleLifecycleEnv (by decide) rfl rfl rfl rfl rfl rfl rfl rfl
      (by decide) (fun _ => rfl)⟩

/-- The one-step unfoldings of the retention loop `hookPrune`. -/
theorem hookPrune_cons_ok (del : BackupState → String → BackupState × Except Err Unit)
    (st : BackupState) (b : BackupEntry) (rest : List BackupEntry)
    (h3 : 2 ≤ rest.length) (hdel : (del st b.name).2 = .ok ()) :
    hookPrune del st (b :: rest) =
      ((hookPrune del (del st b.name).1 rest).1,
       (b.name, true) :: (hookPrune del (del st b.name).1 rest).2.1,
       (hookPrune del (del st b.name).1 rest).2.2) := by
  simp [hookPrune, h3, hdel]

theorem hookPrune_cons_error (del : BackupState → String → BackupState × Except Err Unit)
    (st : BackupState) (b : BackupEntry) (rest : List BackupEntry)
    (h3 : 2 ≤ rest.length) (e : Err) (hdel : (del st b.name).2 = .error e) :
    hookPrune del st (b :: rest) = ((del st b.name).1, [(b.name, false)], true) := by
  simp [hookPrune, h3, hdel]

theorem hookPrune_cons_short (del : BackupState → String → BackupState × Except Err Unit)
    (st : BackupState) (b : BackupEntry) (rest : List BackupEntry)
    (h3 : ¬ 2 ≤ rest.length) :
    hookPrune del st (b :: rest) = (st, [], false) := by
  simp [hookPrune, h3]

/-- The names the retention loop attempts to delete form a left-to-right cut
of the list it walks. -/
theorem hookPrune_names_pre (del : BackupState → String → BackupState × Except Err Unit) :
    ∀ (bs : List BackupEntry) (st : BackupState),
      ((hookPrune del st bs).2.1.map Prod.fst) <+: bs.map (fun b => b.name) := by
  intro bs
  induction bs with
  | nil => intro st; simp [hookPrune]
  | cons b rest ih =>
      intro st
      by_cases h3 : 2 ≤ rest.length
      · cases hdel : (del st b.name).2 with
        | ok u =>
            rw [hookPrune_cons_ok del st b rest h3 (by rw [hdel])]
            simp only [List.map_cons]
            exact List.cons_prefix_cons.mpr ⟨rfl, ih (del st b.name).1⟩
        | error e =>
            rw [hookPrune_cons_error del st b rest h3 e hdel]
            simp only [List.map_cons, List.map_nil]
            exact List.cons_prefix_cons.mpr ⟨rfl, List.nil_prefix⟩
      · rw [hookPrune_cons_short del st b rest h3]
        simp only [List.map_nil]
        exact List.nil_prefix

/-- The retention loop attempts at most `n - 2` deletes. -/
theorem hookPrune_trace_len (del : BackupState → String → BackupState × Except Err Unit) :
    ∀ (bs : List BackupEntry) (st : BackupState),
      (hookPrune del st bs).2.1.length ≤ bs.length - 2 := by
  intro bs
  induction bs with
  | nil => intro st; simp [hookPrune]
  | cons b rest ih =>
      intro st
      by_cases h3 : 2 ≤ rest.length
      · cases hdel : (del st b.name).2 with
        | ok u =>
            rw [hookPrune_cons_ok del st b rest h3 (by rw [hdel])]
            have := ih (del st b.name).1
            simp only [List.length_cons]
            omega
        | error e =>
            rw [hookPrune_cons_error del st b rest h3 e hdel]
            simp only [List.length_cons, List.length_nil]
            omega
      · rw [hookPrune_cons_short del st b rest h3]
        simp

/-- When the retention loop stops early, its attempt trace is a run of
successful deletes followed by exactly one failed delete — no further delete
is attempted after the failure. -/
theorem hookPrune_stop_shape (del : BackupState → String → BackupState × Except Err Unit) :
    ∀ (bs : List BackupEntry) (st : BackupState),
      (hookPrune del st bs).2.2 = true →
      ∃ pre nm, (hookPrune del st bs).2.1 = pre ++ [(nm, false)] ∧
        pre.all (fun a => a.2) = true := by
  intro bs
  induction bs with
  | nil => intro st h; simp [hookPrune] at h
  | cons b rest ih =>
      intro st h
      by_cases h3 : 2 ≤ rest.length
      · cases hdel : (del st b.name).2 with
        | ok u =>
            have hstep := hookPrune_cons_ok del st b rest h3 (by rw [hdel])
            have hstop : (hookPrune del (del st b.name).1 rest).2.2 = true := by
              rw [hstep] at h
              exact h
            obtain ⟨pre, nm, h1, h2⟩ := ih (del st b.name).1 hstop
            refine ⟨(b.name, true) :: pre, nm, ?_, ?_⟩
            · rw [hstep]
              simp [h1]
            · simpa using h2
        | error e =>
            rw [hookPrune_cons_error del st b rest h3 e hdel]
            exact ⟨[], b.name, rfl, rfl⟩
      · rw [hookPrune_cons_short del st b rest h3] at h
        simp at h

/-- When every delete succeeds, the retention loop deletes exactly the first
`n - 2` entries of the list it walks (in order) and does not stop early. -/
theorem hookPrune_all_ok (del : BackupState → String → BackupState × Except Err Unit)
    (hdel : ∀ s n, (del s n).2 = .ok ()) :
    ∀ (bs : List BackupEntry) (st : BackupState),
      (hookPrune del st bs).2.1 =
        ((bs.map (fun b => b.name)).take (bs.length - 2)).map (fun n => (n, true)) ∧
      (hookPrune del st bs).2.2 = false := by
  intro bs
  induction bs with
  | nil => intro st; simp [hookPrune]
  | cons b rest ih =>
      intro st
      by_cases h3 : 2 ≤ rest.length
      · have hstep := hookPrune_cons_ok del st b rest h3 (hdel st b.name)
        refine ⟨?_, by rw [hstep]; exact (ih (del st b.name).1).2⟩
        rw [hstep]
        show (b.name, true) :: (hookPrune del (del st b.name).1 rest).2.1 = _
        rw [(ih (del st b.name).1).1]
        have hsub : (b :: rest).length - 2 = (rest.length - 2) + 1 := by
          simp only [List.length_cons]
          omega
        rw [hsub]
        simp only [List.map_cons, List.take_succ_cons, List.map_cons]
      · have hz : (b :: rest).length - 2 = 0 := by
          simp only [List.length_cons]
          omega
        rw [hookPrune_cons_short del st b rest h3, hz]
        simp

/-- C4 counterexample: with exactly two update-triggered backups in the
catalog and every operation succeeding, `post_system_update_hook` deletes
nothing and creates a third — so it does not keep the number of
update-triggered backups at 2 and does not delete the oldest when a 3rd is
created. -/
theorem post_update_hook_three_backups :
    (updateBackupNames sampleEnv sampleStTwoUpdates).length = 2 ∧
    (updateBackupNames sampleEnv (post_system_update_hook sampleEnv sampleStTwoUpdates)).length = 3 ∧
    ¬ (updateBackupNames sampleEnv
        (post_system_update_hook sampleEnv sampleStTwoUpdates)).length ≤ 2 := by
  refine ⟨by decide, by decide, by decide⟩

/-- C4 (amended): the retention phase of `post_system_update_hook` prunes the
pre-existing update-triggered backups oldest-first (its delete attempts are a
left cut of the catalog entries sorted ascending by creation time), attempts
at most `n - 2` deletes, stops at the first failing delete without attempting
any further one, and — when every delete succeeds — deletes exactly the
`n - 2` oldest, keeping 2 pre-existing update backups (before the hook then
creates its new update backup, which can bring the total back to 3). -/
theorem post_update_retention_spec
    (del : BackupState → String → BackupState × Except Err Unit)
    (st : BackupState) (backups : List BackupEntry) :
    ((hookRetention del st backups).2.1.map Prod.fst) <+:
      (sortByCreated backups).map (fun b => b.name) ∧
    (hookRetention del st backups).2.1.length ≤ backups.length - 2 ∧
    ((hookRetention del st backups).2.2 = true →
      ∃ pre nm, (hookRetention del st backups).2.1 = pre ++ [(nm, false)] ∧
        pre.all (fun a => a.2) = true) ∧
    ((∀ s n, (del s n).2 = .ok ()) →
      (hookRetention del st backups).2.1 =
        (((sortByCreated backups).map (fun b => b.name)).take (backups.length - 2)).map
          (fun n => (n, true)) ∧
      (hookRetention del st backups).2.2 = false) := by
  have hlen : (sortByCreated backups).length = backups.length :=
    List.length_insertionSort _ _
  unfold hookRetention
  by_cases h3 : 3 ≤ backups.length
  · rw [if_pos h3]
    refine ⟨hookPrune_names_pre del (sortByCreated backups) st, ?_,
      hookPrune_stop_shape del (sortByCreated backups) st, ?_⟩
    · have := hookPrune_trace_len del (sortByCreated backups) st
      rwa [hlen] at this
    · intro hdel
      have h := hookPrune_all_ok del hdel (sortByCreated backups) st
      rw [hlen] at h
      exact h
  · rw [if_neg h3]
    refine ⟨List.nil_prefix, by simp, by simp, ?_⟩
    intro _
    have hz : backups.length - 2 = 0 := by omega
    simp [hz]

/-- Witness for C4: on three update backups listed out of order, the loop
with an always-succeeding delete removes exactly the oldest (`u1`) and does
not stop early; with an always-failing delete the trace is a single failed
attempt. -/
theorem post_update_retention_spec_witness :
    ((hookRetention okDel sampleStB1 sampleThreeUpdateEntries).2.1 = [("u1", true)] ∧
      (hookRetention okDel sampleStB1 sampleThreeUpdateEntries).2.2 = false) ∧
    (∃ pre nm,
      (hookRetention failDel sampleStB1 sampleThreeUpdateEntries).2.1 = pre ++ [(nm, false)] ∧
      pre.all (fun a => a.2) = true) := by
  constructor
  · have hok := (post_update_retention_spec okDel sampleStB1 sampleThreeUpdateEntries).2.2.2
      (fun s n => rfl)
    refine ⟨?_, hok.2⟩
    rw [hok.1]
    decide
  · exact (post_update_retention_spec failDel sampleStB1 sampleThreeUpdateEntries).2.2.1
      (by decide)

/-- The reconciliation loop raises `KeyError('pv_info')` on its very first
release whenever that release's restore data has no `pv_info` key. -/
theorem phase2_keyerror (env : RestoreEnv) (r : String × RestoredData)
    (rest : List (String × RestoredData)) (log : RestoreLog)
    (h : r.2.pv_info = none) :
    phase2 env (r :: rest) log = (log, some (.keyError "pv_info")) := by
  obtain ⟨nm, data⟩ := r
  simp only [phase2]
  rw [show data.pv_info = none from h]

/-- Phase 1 writes only the `replica_counts` key: every entry it accumulates
into `restored_chart_releases` has no `pv_info` key. -/
theorem phase1_pv_info_none (env : RestoreEnv) :
    ∀ (releases : List (String × ReleaseBackupDir)) (log : RestoreLog)
      (acc : List (String × RestoredData)),
      (∀ p ∈ acc, p.2.pv_info = none) →
      ∀ p ∈ (phase1 env releases log acc).2.1, p.2.pv_info = none := by
  intro releases
  induction releases with
  | nil => intro log acc hacc; exact hacc
  | cons r rest ih =>
      intro log acc hacc
      obtain ⟨release_name, d⟩ := r
      simp only [phase1]
      split
      · exact ih _ _ hacc
      · split
        · exact ih _ _ hacc
        · split
          · exact hacc
          · split
            · exact hacc
            · split
              · exact hacc
              · apply ih
                intro p hp
                rcases List.mem_append.mp hp with h | h
                · exact hacc p h
                · rcases List.mem_singleton.mp h with rfl
                  rfl

/-- C1 (failing input): a restore of a backup holding one healthy release,
with every collaborator call succeeding.  Phase 1 imports the release, but the
reconciliation loop's first statement reads the `pv_info` dict key phase 1
never wrote (see `phase1_pv_info_none`), so the whole restore aborts with an
uncaught `KeyError` before any redeploy job is created and never reaches the
workload-scaling or catalog-sync steps — the caught/logged best-effort
handling of PV/PVC and CRD failures inside the loop is never exercised. -/
theorem restore_pv_info_keyerror :
    (restore_backup sampleRestoreEnv "bk").1.namespacesCreated = ["ix-app1"] ∧
    (restore_backup sampleRestoreEnv "bk").2 = .error (.keyError "pv_info") ∧
    (restore_backup sampleRestoreEnv "bk").1.redeployed = [] ∧
    (restore_backup sampleRestoreEnv "bk").1.scaled = [] ∧
    (restore_backup sampleRestoreEnv "bk").1.catalogSyncReached = false :=
  ⟨rfl, rfl, rfl, rfl, rfl⟩

/-- C8 (failing input): a restore of a backup holding a release whose dataset
is gone, one missing `namespace.yaml`, one with an empty `secrets` directory,
and one healthy release.  The three defective releases are skipped with a
logged error and no namespace or secret is recreated for them — but the rest
of the restore does not complete: it aborts with the uncaught
`KeyError('pv_info')` while reconciling the remaining healthy release. -/
theorem restore_skips_but_aborts :
    (restore_backup sampleRestoreEnvSkips "bk").1.skipped = ["ghost", "noyaml", "emptysec"] ∧
    (restore_backup sampleRestoreEnvSkips "bk").1.namespacesCreated = ["ix-app1"] ∧
    (restore_backup sampleRestoreEnvSkips "bk").1.secretsCreated = [("ix-app1", "s1")] ∧
    (restore_backup sampleRestoreEnvSkips "bk").2 = .error (.keyError "pv_info") :=
  ⟨rfl, rfl, rfl, rfl⟩

end Middleware
